import Mathlib

/-!
Shallow embedding of `scraper.py` from the selenium-webscraping-template
repository (class `WebScraper`), together with proofs of the specified
properties of its operations.

Modelling conventions:
* The browser driver handle is modelled as a `Nat` token; `Option Nat` is the
  `self.driver` field (`None` ↔ `none`).
* External library behaviour (Selenium, BeautifulSoup) is supplied through
  explicit environment records: each external call that can fail has a Boolean
  oracle saying whether it fails, and the parsed page source is supplied as an
  already-parsed document tree (HTML parsing itself is the external library's
  responsibility, outside the spec's scope).
* Exceptions are modelled with `Except`: a function that can propagate a Python
  exception returns `Except Exn _`; `Except.error e` is a propagated exception.
* `print` calls are modelled by accumulating the printed strings in a list.
-/

/-- A parsed HTML document / element tree (the BeautifulSoup document model
that `extract_data` consumes): an element with tag name, attribute
association list and children, or a text node. -/
inductive Node where
  | elem (tag : String) (attrs : List (String × String)) (children : List Node)
  | text (s : String)

/-- Python's `str.strip()` (used by `get_text(strip=True)`): drop leading and
trailing whitespace. -/
def pyStrip (s : String) : String :=
  String.mk (((s.data.dropWhile Char.isWhitespace).reverse.dropWhile
    Char.isWhitespace).reverse)

mutual

/-- `elem.get_text(strip=True)`: concatenation of the stripped text pieces of
all text descendants, in document order. -/
def Node.getText : Node → String
  | Node.text s => pyStrip s
  | Node.elem _ _ cs => Node.getTextList cs

/-- `get_text` over a list of children, in order. -/
def Node.getTextList : List Node → String
  | [] => ""
  | c :: cs => Node.getText c ++ Node.getTextList cs

end

mutual

/-- `soup.select(selector)` for a type (tag-name) selector: all elements whose
tag equals the selector, in document (pre-order) order.  Full CSS selector
semantics is the external library's; the spec's non-goals exclude it. -/
def Node.select (sel : String) : Node → List Node
  | Node.elem t a cs =>
      (if t = sel then [Node.elem t a cs] else []) ++ Node.selectList sel cs
  | Node.text _ => []

/-- `select` over a list of sibling nodes, in order. -/
def Node.selectList (sel : String) : List Node → List Node
  | [] => []
  | c :: cs => Node.select sel c ++ Node.selectList sel cs

end

/-- The attribute association list of a node (empty for text nodes). -/
def Node.attrsOf : Node → List (String × String)
  | Node.elem _ a _ => a
  | Node.text _ => []

/-- `elem.get(attribute, '')`: the attribute's value, or `""` if absent. -/
def Node.getAttr (n : Node) (a : String) : String :=
  ((n.attrsOf).lookup a).getD ""

/-- `WebScraper.extract_data(soup, selector, attribute)`: select all elements
matching the selector; if an attribute name is given (and non-empty — Python's
`if attribute:` is falsy for `None` and for `""`), return its value per
element with `""` as default; otherwise the stripped text per element. -/
def extract_data (soup : Node) (selector : String) (attr : Option String) :
    List String :=
  let elements := Node.select selector soup
  match attr with
  | some a => if a = "" then elements.map Node.getText
              else elements.map (fun e => Node.getAttr e a)
  | none => elements.map Node.getText

/-- The test markup from `test_template.py` (`test_beautifulsoup_usage`). -/
def exampleDoc : Node :=
  Node.elem "html" [] [
    Node.elem "head" [] [Node.elem "title" [] [Node.text "Test Page"]],
    Node.elem "body" [] [
      Node.elem "h1" [] [Node.text "Main Title"],
      Node.elem "p" [] [Node.text "Paragraph 1"],
      Node.elem "p" [] [Node.text "Paragraph 2"],
      Node.elem "a" [("href", "http://example.com")] [Node.text "Link 1"],
      Node.elem "a" [("href", "http://test.com")] [Node.text "Link 2"]]]

/-- The mutable state of a `WebScraper` instance (`__init__`, lines 34–45). -/
structure ScraperState where
  driver : Option Nat
  headless : Bool
  window_size : String
  session_active : Bool
deriving DecidableEq

/-- `WebScraper.__init__(headless, window_size)`. -/
def init (headless : Bool) (window_size : String) : ScraperState :=
  ⟨none, headless, window_size, false⟩

/-- The exception taxonomy of the error-handling design: Timeout,
ElementNotFound, NavigationFailure/driver errors, and Generic. -/
inductive Exn where
  | timeout
  | noSuchElement
  | webDriver
  | generic
deriving DecidableEq

/-- `str(e)` for a modelled exception. -/
def exnMsg : Exn → String
  | Exn.timeout => "TimeoutException"
  | Exn.noSuchElement => "NoSuchElementException"
  | Exn.webDriver => "WebDriverException"
  | Exn.generic => "Exception"

/-- `WebScraper.start()`: a no-op if the driver exists, otherwise create the
handle via `_setup_driver()` (which may itself raise — `startFails`). -/
def start (st : ScraperState) (startFails : Bool) (h : Nat) :
    Except Unit (ScraperState × List String) :=
  if st.driver = none then
    if startFails then Except.error ()
    else Except.ok ({ st with driver := some h },
                    ["WebDriver initialized successfully"])
  else Except.ok (st, [])

/-- `WebScraper.close()`: if a driver exists, quit it, clear the handle and
reset `session_active`; otherwise do nothing.  Returns the new state and the
printed messages; the function is total — no path raises. -/
def close (st : ScraperState) : ScraperState × List String :=
  if st.driver.isSome then
    ({ st with driver := none, session_active := false }, ["Closing WebDriver..."])
  else (st, [])

/-- The outcomes of the external calls made by `login` (the world's answers to
Selenium calls).  Each `Bool` says whether the corresponding call fails:
`startFails` for `_setup_driver`, `navigateFails` for `driver.get(url)`,
`usernameFieldAppears` for the bounded (10 s) `WebDriverWait` on the username
field (`false` ↔ `TimeoutException`), `passwordFieldFound` / `submitFound` for
the unbounded `find_element` lookups (`false` ↔ `NoSuchElementException`),
`clickFails` for `submit_btn.click()`, and `successIndicatorAppears` for the
bounded (10 s) wait on the success indicator. -/
structure LoginEnv where
  startFails : Bool
  newHandle : Nat
  navigateFails : Bool
  usernameFieldAppears : Bool
  passwordFieldFound : Bool
  submitFound : Bool
  clickFails : Bool
  successIndicatorAppears : Bool

/-- The arguments of `WebScraper.login`. -/
structure LoginArgs where
  url : String
  username : String
  password : String
  username_field : String
  password_field : String
  submit_button : String
  success_indicator : Option String

/-- The result of a `login` call: the state of the scraper afterwards, the
printed messages, and either a returned Boolean (`Except.ok`) or a propagated
exception (`Except.error`). -/
structure LoginResult where
  state : ScraperState
  msgs : List String
  outcome : Except Exn Bool

/-- The message printed by `login`'s `except Exception as e` handler. -/
def loginErrMsg (e : Exn) : String :=
  "Login failed with error: " ++ exnMsg e

/-- Python truthiness of an `Optional[str]`: `None` and `""` are falsy, every
other string is truthy (the test used by `if success_indicator:` and
`if url:`). -/
def pyTruthy : Option String → Bool
  | none => false
  | some s => !(s == "")

/-- The body of `login`'s `try` block (lines 111–155).  `Except.error e` marks
an exception raised at that point of the sequence, to be caught by the
uniform `except Exception` handler; `Except.ok b` is a normal `return b`.
The success check is `if success_indicator:` (line 140) — Python truthiness,
so an empty-string indicator takes the no-verification branch. -/
def loginTry (st0 : ScraperState) (env : LoginEnv) (a : LoginArgs) :
    ScraperState × List String × Except Exn Bool :=
  let m1 := ["Navigating to login page: " ++ a.url]
  if env.navigateFails then (st0, m1, Except.error Exn.webDriver)
  else
    -- time.sleep(2): page-load settle delay
    let m2 := m1 ++ ["Filling in credentials..."]
    if env.usernameFieldAppears = false then (st0, m2, Except.error Exn.timeout)
    else if env.passwordFieldFound = false then
      (st0, m2, Except.error Exn.noSuchElement)
    else
      let m3 := m2 ++ ["Submitting login form..."]
      if env.submitFound = false then (st0, m3, Except.error Exn.noSuchElement)
      else if env.clickFails then (st0, m3, Except.error Exn.generic)
      else
        -- time.sleep(3): post-submit settle delay
        if pyTruthy a.success_indicator then
          if env.successIndicatorAppears then
            ({ st0 with session_active := true },
             m3 ++ ["Login successful!"], Except.ok true)
          else
            (st0, m3 ++ ["Login failed: success indicator not found"],
             Except.ok false)
        else
          ({ st0 with session_active := true },
           m3 ++ ["Login completed (no success indicator to verify)"],
           Except.ok true)

/-- Run the `try` body and apply the `except Exception` handler: any raised
exception becomes a printed diagnostic plus `return False`. -/
def loginFinish (st0 : ScraperState) (pre : List String) (env : LoginEnv)
    (a : LoginArgs) : LoginResult :=
  match loginTry st0 env a with
  | (st1, ms, Except.error e) => ⟨st1, pre ++ ms ++ [loginErrMsg e], Except.ok false⟩
  | (st1, ms, Except.ok b) => ⟨st1, pre ++ ms, Except.ok b⟩

/-- `WebScraper.login` (lines 89–159): the implicit auto-start
(`if self.driver is None: self.start()`) happens before the `try` block, so a
failure there propagates (`Except.error`); everything afterwards is protected
by the handler. -/
def login (st : ScraperState) (env : LoginEnv) (a : LoginArgs) : LoginResult :=
  if st.driver = none then
    if env.startFails then ⟨st, [], Except.error Exn.webDriver⟩
    else loginFinish { st with driver := some env.newHandle }
           ["WebDriver initialized successfully"] env a
  else loginFinish st [] env a

/-- "The whole submission sequence completed without an exception": none of
the calls from navigation up to and including the submit click failed. -/
def seqOk (env : LoginEnv) : Bool :=
  !env.navigateFails && env.usernameFieldAppears && env.passwordFieldFound
    && env.submitFound && !env.clickFails

/-- The outcomes of the external calls made by `scrape_page`, and the parsed
document the library produces from the page source.  (HTML parsing and the
lxml/html.parser fallback are the external library's; the environment supplies
the resulting parsed document directly.) -/
structure ScrapeEnv where
  startFails : Bool
  newHandle : Nat
  navigateFails : Bool
  pageSource : Node

/-- The result of a `scrape_page` call: state, printed messages, and either
the parsed document or a propagated exception (`scrape_page` catches
nothing). -/
structure ScrapeResult where
  state : ScraperState
  msgs : List String
  outcome : Except Exn Node

/-- The part of `scrape_page` after the auto-start: navigation guarded by
`if url:` (line 176, Python truthiness — `None` and `""` both skip it; a
navigation failure propagates), `time.sleep(wait_time)`, then parse the page
source. -/
def scrapeGo (st0 : ScraperState) (pre : List String) (env : ScrapeEnv)
    (url : Option String) : ScrapeResult :=
  match url with
  | some u =>
    if u = "" then ⟨st0, pre, Except.ok env.pageSource⟩
    else
      let ms := pre ++ ["Navigating to: " ++ u]
      if env.navigateFails then ⟨st0, ms, Except.error Exn.webDriver⟩
      else ⟨st0, ms, Except.ok env.pageSource⟩
  | none => ⟨st0, pre, Except.ok env.pageSource⟩

/-- `WebScraper.scrape_page` (lines 161–191): auto-start if the driver is
`None` (a startup failure propagates), navigate if a URL was given, wait,
parse, return the document.  No exception is caught. -/
def scrape_page (st : ScraperState) (env : ScrapeEnv) (url : Option String)
    (wait_time : ℚ) : ScrapeResult :=
  if st.driver = none then
    if env.startFails then ⟨st, [], Except.error Exn.webDriver⟩
    else scrapeGo { st with driver := some env.newHandle }
           ["WebDriver initialized successfully"] env url
  else scrapeGo st [] env url

/-- `np.random.uniform(low, high)`: `low + (high - low) * u` where `u` is the
underlying unit draw in `[0, 1)`. -/
def npUniform (low high u : ℚ) : ℚ :=
  low + (high - low) * u

/-- `WebScraper.wait_random(min_seconds, max_seconds)` for a given unit draw
`u`: returns (drawn duration, duration actually slept); the code sleeps for
exactly the drawn value (`time.sleep(wait_time)`). -/
def wait_random (min_seconds max_seconds u : ℚ) : ℚ × ℚ :=
  let wait_time := npUniform min_seconds max_seconds u
  (wait_time, wait_time)

/-- The `with WebScraper(...) as scraper:` protocol: `__enter__` runs
`start()` (if it raises, the body never runs and `__exit__` is not called);
the body runs and returns a final state together with a value or an
exception; `__exit__` runs `close()` on every exit path and, returning
`None`, lets any body exception propagate. -/
def withScraper {α : Type} (st : ScraperState) (startFails : Bool) (h : Nat)
    (body : ScraperState → ScraperState × Except Exn α) :
    ScraperState × Except Exn α :=
  match start st startFails h with
  | Except.error _ => (st, Except.error Exn.webDriver)
  | Except.ok (st1, _) =>
    let r := body st1
    ((close r.1).1, r.2)

/-- The state-mutating operations a caller can invoke on a `WebScraper`
(`extract_data` and `process_data_with_numpy` do not touch the state, and
`wait_random` only sleeps). -/
inductive Op where
  | start (startFails : Bool) (h : Nat)
  | login (env : LoginEnv) (a : LoginArgs)
  | scrape (env : ScrapeEnv) (url : Option String) (wait_time : ℚ)
  | close

/-- The state after one operation (a raised exception leaves the state as the
operation left it). -/
def step (st : ScraperState) : Op → ScraperState
  | Op.start f h =>
    match start st f h with
    | Except.ok (st1, _) => st1
    | Except.error _ => st
  | Op.login env a => (login st env a).state
  | Op.scrape env url w => (scrape_page st env url w).state
  | Op.close => (close st).1

/-! ### Helper lemmas about `login` -/

/-- The handler turns every raised exception into `return False`: `loginFinish`
always returns a Boolean. -/
theorem loginFinish_ok (st0 : ScraperState) (pre : List String) (env : LoginEnv)
    (a : LoginArgs) : ∃ b, (loginFinish st0 pre env a).outcome = Except.ok b := by
  unfold loginFinish
  rcases h : loginTry st0 env a with ⟨st1, ms, r⟩
  cases r <;> simp

/-- `loginFinish` returns `True` exactly when the submission sequence ran
clean and, if a (truthy, i.e. non-`None` non-empty) success indicator was
supplied, it appeared in time. -/
theorem loginFinish_true_iff (st0 : ScraperState) (pre : List String)
    (env : LoginEnv) (a : LoginArgs) :
    (loginFinish st0 pre env a).outcome = Except.ok true ↔
      (seqOk env = true ∧
        (pyTruthy a.success_indicator = true →
          env.successIndicatorAppears = true)) := by
  obtain ⟨sf, nh, nf, ua, pff, sbf, cf, sia⟩ := env
  obtain ⟨u, un, pw, uf, pf2, sb2, si⟩ := a
  cases nf <;> cases ua <;> cases pff <;> cases sbf <;> cases cf <;> cases sia <;>
    cases hsi : pyTruthy si <;> simp [loginFinish, loginTry, seqOk, hsi]

/-- Whenever `loginFinish` returns `False`, the last printed line is a
diagnostic: either the timeout message of the success-indicator branch or the
generic handler's message. -/
theorem loginFinish_false_msg (st0 : ScraperState) (pre : List String)
    (env : LoginEnv) (a : LoginArgs)
    (h : (loginFinish st0 pre env a).outcome = Except.ok false) :
    ∃ m, (loginFinish st0 pre env a).msgs.getLast? = some m ∧
      (m = "Login failed: success indicator not found" ∨ ∃ e, m = loginErrMsg e) := by
  obtain ⟨sf, nh, nf, ua, pff, sbf, cf, sia⟩ := env
  obtain ⟨u, un, pw, uf, pf2, sb2, si⟩ := a
  cases nf <;> cases ua <;> cases pff <;> cases sbf <;> cases cf <;> cases sia <;>
    cases hsi : pyTruthy si <;>
    simp_all [loginFinish, loginTry, List.getLast?_append, loginErrMsg] <;>
    exact Or.inr ⟨_, rfl⟩

/-- `loginFinish` either leaves `session_active` unchanged (and does not
return `True`) or sets it (and returns `True`). -/
theorem loginFinish_session (st0 : ScraperState) (pre : List String)
    (env : LoginEnv) (a : LoginArgs) :
    ((loginFinish st0 pre env a).state.session_active = st0.session_active ∧
      (loginFinish st0 pre env a).outcome ≠ Except.ok true) ∨
    ((loginFinish st0 pre env a).state.session_active = true ∧
      (loginFinish st0 pre env a).outcome = Except.ok true) := by
  obtain ⟨sf, nh, nf, ua, pff, sbf, cf, sia⟩ := env
  obtain ⟨u, un, pw, uf, pf2, sb2, si⟩ := a
  cases nf <;> cases ua <;> cases pff <;> cases sbf <;> cases cf <;> cases sia <;>
    cases hsi : pyTruthy si <;> simp [loginFinish, loginTry, hsi]

/-- Lift a `loginFinish` fact to `login` under the assumption that the
auto-start does not raise. -/
theorem login_eq_loginFinish (st : ScraperState) (env : LoginEnv) (a : LoginArgs)
    (h : st.driver.isSome = true ∨ env.startFails = false) :
    (st.driver.isSome = true ∧ login st env a = loginFinish st [] env a) ∨
    (st.driver = none ∧ env.startFails = false ∧
      login st env a = loginFinish { st with driver := some env.newHandle }
        ["WebDriver initialized successfully"] env a) := by
  by_cases hd : st.driver = none
  · rcases h with h | h
    · simp [hd] at h
    · exact Or.inr ⟨hd, h, by simp [login, hd, h]⟩
  · refine Or.inl ⟨?_, ?_⟩
    · simp [Option.isSome_iff_ne_none, hd]
    · simp [login, hd]

/-- A fresh, never-started scraper. -/
def stFresh : ScraperState := init true "1920,1080"

/-- An environment where driver startup itself raises. -/
def envStartFail : LoginEnv := ⟨true, 0, false, true, true, true, false, true⟩

/-- An environment where everything succeeds. -/
def envAllOk : LoginEnv := ⟨false, 7, false, true, true, true, false, true⟩

/-- An environment where navigation to the login URL raises. -/
def envNavFail : LoginEnv := ⟨false, 7, true, true, true, true, false, true⟩

/-- An environment where the success indicator never appears in time. -/
def envNoIndicator : LoginEnv := ⟨false, 7, false, true, true, true, false, false⟩

/-- Concrete `login` arguments with a success indicator. -/
def argsInd : LoginArgs :=
  ⟨"https://example.com/login", "user", "secret", "username", "password",
   "submit", some "dashboard"⟩

/-- Concrete `login` arguments without a success indicator. -/
def argsNoInd : LoginArgs :=
  ⟨"https://example.com/login", "user", "secret", "username", "password",
   "submit", none⟩

/-- Concrete `login` arguments with an empty-string (falsy) success
indicator. -/
def argsEmptyInd : LoginArgs :=
  ⟨"https://example.com/login", "user", "secret", "username", "password",
   "submit", some ""⟩

/-- C1 (counterexample): as stated, the claim is false — with a fresh
(never-started) scraper and a driver startup that raises, `login` propagates
the exception to its caller instead of returning `false`: the auto-start at
lines 108–109 runs before the `try` block. -/
theorem login_propagates_startup_failure_cex :
    (login stFresh envStartFail argsInd).outcome = Except.error Exn.webDriver := by
  rfl

/-- C1 (amended): provided the driver is already started (or the implicit
auto-start succeeds), `login` never propagates an exception: every exception
raised during the navigate/wait/fill/submit/verify sequence is caught, the
call returns a Boolean, and whenever it returns `false` the last printed line
is a diagnostic message. -/
theorem login_never_propagates_after_start (st : ScraperState) (env : LoginEnv)
    (a : LoginArgs) (h : st.driver.isSome = true ∨ env.startFails = false) :
    (∃ b, (login st env a).outcome = Except.ok b) ∧
    ((login st env a).outcome = Except.ok false →
      ∃ m, (login st env a).msgs.getLast? = some m ∧
        (m = "Login failed: success indicator not found" ∨
          ∃ e, m = loginErrMsg e)) := by
  rcases login_eq_loginFinish st env a h with ⟨_, he⟩ | ⟨_, _, he⟩ <;> rw [he] <;>
    exact ⟨loginFinish_ok _ _ _ _, fun hf => loginFinish_false_msg _ _ _ _ hf⟩

/-- C1 (witness): the amended theorem at a concrete input: a started scraper
whose navigation raises — `login` returns `false` and the last printed line is
the handler's diagnostic. -/
theorem login_never_propagates_after_start_witness :
    ((stFresh.driver.isSome = true ∨ envNavFail.startFails = false) ∧
      ∃ b, (login stFresh envNavFail argsInd).outcome = Except.ok b) ∧
    ∃ m, (login stFresh envNavFail argsInd).msgs.getLast? = some m ∧
      (m = "Login failed: success indicator not found" ∨ ∃ e, m = loginErrMsg e) := by
  refine ⟨⟨Or.inr rfl, (login_never_propagates_after_start stFresh envNavFail
    argsInd (Or.inr rfl)).1⟩, (login_never_propagates_after_start stFresh
    envNavFail argsInd (Or.inr rfl)).2 (by rfl)⟩

/-- C2: provided the auto-start does not raise, `login` returns `true` exactly
when the submission sequence completed without an exception and, if a
success-marker locator was given, the marker appeared before the bounded wait
elapsed; a given marker that does not appear yields `false` (via the
`TimeoutException` branch), never an exception, and a username field that
never appears within the bound also yields `false`.  "Given" is the code's
own test `if success_indicator:` (line 140), i.e. Python truthiness: `None`
and the empty string both mean no marker was supplied. -/
theorem login_success_iff (st : ScraperState) (env : LoginEnv) (a : LoginArgs)
    (h : st.driver.isSome = true ∨ env.startFails = false) :
    ((login st env a).outcome = Except.ok true ↔
      (seqOk env = true ∧
        (pyTruthy a.success_indicator = true →
          env.successIndicatorAppears = true))) ∧
    (pyTruthy a.success_indicator = true → env.successIndicatorAppears = false →
      (login st env a).outcome = Except.ok false) ∧
    (env.usernameFieldAppears = false →
      (login st env a).outcome = Except.ok false) := by
  have key : ∀ (st0 : ScraperState) (pre : List String),
      ((loginFinish st0 pre env a).outcome = Except.ok true ↔
        (seqOk env = true ∧
          (pyTruthy a.success_indicator = true →
            env.successIndicatorAppears = true))) ∧
      (pyTruthy a.success_indicator = true → env.successIndicatorAppears = false →
        (loginFinish st0 pre env a).outcome = Except.ok false) ∧
      (env.usernameFieldAppears = false →
        (loginFinish st0 pre env a).outcome = Except.ok false) := by
    intro st0 pre
    refine ⟨loginFinish_true_iff st0 pre env a, ?_, ?_⟩
    · intro hsi hsia
      rcases loginFinish_ok st0 pre env a with ⟨b, hb⟩
      cases b
      · exact hb
      · have hx := (loginFinish_true_iff st0 pre env a).1 hb
        rw [hx.2 hsi] at hsia; cases hsia
    · intro hua
      rcases loginFinish_ok st0 pre env a with ⟨b, hb⟩
      cases b
      · exact hb
      · have hx := ((loginFinish_true_iff st0 pre env a).1 hb).1
        simp [seqOk, hua] at hx
  rcases login_eq_loginFinish st env a h with ⟨_, he⟩ | ⟨_, _, he⟩ <;> rw [he] <;>
    exact key _ _

/-- C2 (witness): with everything succeeding and a success indicator that
appears, `login` returns `true`; with the indicator never appearing it
returns `false`; with a falsy (empty-string) indicator the no-verification
branch returns `true` even though no marker ever appears. -/
theorem login_success_iff_witness :
    (stFresh.driver.isSome = true ∨ envAllOk.startFails = false) ∧
    (login stFresh envAllOk argsInd).outcome = Except.ok true ∧
    (login stFresh envNoIndicator argsInd).outcome = Except.ok false ∧
    (login stFresh envNoIndicator argsEmptyInd).outcome = Except.ok true := by
  refine ⟨Or.inr rfl, ?_, ?_, ?_⟩
  · exact (login_success_iff stFresh envAllOk argsInd (Or.inr rfl)).1.mpr
      ⟨rfl, fun _ => rfl⟩
  · exact (login_success_iff stFresh envNoIndicator argsInd (Or.inr rfl)).2.1
      (by decide) rfl
  · exact (login_success_iff stFresh envNoIndicator argsEmptyInd (Or.inr rfl)).1.mpr
      ⟨rfl, fun hx => absurd hx (by decide)⟩

/-- C3: a selector matching zero elements yields an empty result, for text
requests and for attribute requests alike (and no error: `extract_data` is a
total function). -/
theorem extract_data_empty_on_no_match (soup : Node) (sel : String)
    (attr : Option String) (h : Node.select sel soup = []) :
    extract_data soup sel attr = [] := by
  cases attr with
  | none => simp [extract_data, h]
  | some a => by_cases ha : a = "" <;> simp [extract_data, h, ha]

/-- C3 (witness): the selector "table" matches nothing in the test document,
and the result is empty for an attribute request. -/
theorem extract_data_empty_on_no_match_witness :
    Node.select "table" exampleDoc = [] ∧
    extract_data exampleDoc "table" (some "href") = [] :=
  ⟨rfl, extract_data_empty_on_no_match exampleDoc "table" (some "href") rfl⟩

/-- C4: for an attribute request with a non-empty attribute name, the result
has exactly one entry per matching element, in document order, each equal to
that element's attribute value — looked up in its attribute list, with `""`
when absent. -/
theorem extract_data_attr_request (soup : Node) (sel a : String)
    (ha : ¬ a = "") :
    (extract_data soup sel (some a)).length = (Node.select sel soup).length ∧
    ∀ i : Nat, (extract_data soup sel (some a))[i]? =
      ((Node.select sel soup)[i]?).map
        (fun e => ((e.attrsOf).lookup a).getD "") := by
  constructor
  · simp [extract_data, ha]
  · intro i
    simp [extract_data, ha, Node.getAttr]

/-- A document whose second `<a>` element has no `href` attribute. -/
def mixedDoc : Node :=
  Node.elem "div" [] [
    Node.elem "a" [("href", "http://example.com")] [Node.text "Link 1"],
    Node.elem "a" [("id", "plain")] [Node.text "no href"]]

/-- C4 (witness): on a document with two `<a>` elements, the second of which
lacks `href`, the attribute request has length 2 and yields `""` for the
element without the attribute. -/
theorem extract_data_attr_request_witness :
    (¬ "href" = "") ∧
    (extract_data mixedDoc "a" (some "href")).length =
      (Node.select "a" mixedDoc).length ∧
    (extract_data mixedDoc "a" (some "href"))[1]? = some "" := by
  refine ⟨by decide, (extract_data_attr_request mixedDoc "a" "href" (by decide)).1, ?_⟩
  have hx := (extract_data_attr_request mixedDoc "a" "href" (by decide)).2 1
  rw [hx]; rfl

/-- C5: for a text request the result has exactly one entry per matching
element — the element's stripped text — in document order; in particular, on
the test markup with two `<p>` tags the result is exactly
`["Paragraph 1", "Paragraph 2"]`. -/
theorem extract_data_text_request (soup : Node) (sel : String) :
    (extract_data soup sel none).length = (Node.select sel soup).length ∧
    (∀ i : Nat, (extract_data soup sel none)[i]? =
      ((Node.select sel soup)[i]?).map Node.getText) ∧
    extract_data exampleDoc "p" none = ["Paragraph 1", "Paragraph 2"] := by
  refine ⟨by simp [extract_data], fun i => by simp [extract_data], by decide⟩

/-- C6: `start` on an already-started session is a no-op keeping the existing
handle; `close` releases the handle and resets the authenticated flag; `close`
with no handle is a no-op (and, being total, cannot error); hence a second
`close` is always a no-op. -/
theorem start_close_idempotent :
    (∀ (d : Nat) (hl : Bool) (ws : String) (sa startFails : Bool) (hdl : Nat),
      start ⟨some d, hl, ws, sa⟩ startFails hdl =
        Except.ok (⟨some d, hl, ws, sa⟩, [])) ∧
    (∀ (d : Nat) (hl : Bool) (ws : String) (sa : Bool),
      close ⟨some d, hl, ws, sa⟩ =
        (⟨none, hl, ws, false⟩, ["Closing WebDriver..."])) ∧
    (∀ (hl : Bool) (ws : String) (sa : Bool),
      close ⟨none, hl, ws, sa⟩ = (⟨none, hl, ws, sa⟩, [])) ∧
    (∀ st : ScraperState, close (close st).1 = ((close st).1, [])) := by
  refine ⟨fun d hl ws sa f hdl => by simp [start],
          fun d hl ws sa => by simp [close],
          fun hl ws sa => by simp [close],
          fun st => ?_⟩
  rcases st with ⟨d, hl, ws, sa⟩
  cases d <;> simp [close]

/-- Whenever `start` returns normally, the resulting state has a driver
handle and all other fields unchanged. -/
theorem start_result (st : ScraperState) (f : Bool) (hdl : Nat)
    (st1 : ScraperState) (ms : List String)
    (hs : start st f hdl = Except.ok (st1, ms)) :
    st1.driver.isSome = true ∧ st1.session_active = st.session_active := by
  rcases st with ⟨d, hl, ws, sa⟩
  cases d
  · cases f
    · simp [start] at hs
      rw [← hs.1]
      exact ⟨rfl, rfl⟩
    · simp [start] at hs
  · simp [start] at hs
    rw [← hs.1]
    exact ⟨rfl, rfl⟩

/-- C7: scoped acquisition is safe on every exit path: after the `with` block
the driver handle is always released, `__enter__` leaves the session started,
and for both exit paths (normal value or exception from the body) `__exit__`
runs `close` on the body's final state while the body's outcome — value or
re-raised exception — is passed through. -/
theorem with_scraper_closes_every_path (α : Type) (st : ScraperState)
    (startFails : Bool) (hdl : Nat)
    (body : ScraperState → ScraperState × Except Exn α) :
    (withScraper st startFails hdl body).1.driver = none ∧
    (∀ st1 ms, start st startFails hdl = Except.ok (st1, ms) →
      st1.driver.isSome = true ∧
      withScraper st startFails hdl body =
        ((close (body st1).1).1, (body st1).2)) := by
  have hmain : ∀ st1 ms, start st startFails hdl = Except.ok (st1, ms) →
      st1.driver.isSome = true ∧
      withScraper st startFails hdl body =
        ((close (body st1).1).1, (body st1).2) := by
    intro st1 ms hs
    refine ⟨(start_result st startFails hdl st1 ms hs).1, ?_⟩
    unfold withScraper
    rw [hs]
  refine ⟨?_, hmain⟩
  rcases hs : start st startFails hdl with u | ⟨st1, ms⟩
  · have h1 : st.driver = none := by
      by_contra hne
      simp [start, hne] at hs
    unfold withScraper
    rw [hs, h1]
  · rw [(hmain st1 ms hs).2]
    rcases hb : (body st1).1 with ⟨d2, hl2, ws2, sa2⟩
    cases d2 <;> simp [close]

/-- A concrete scope body that raises a generic exception. -/
def bodyRaise : ScraperState → ScraperState × Except Exn Nat :=
  fun s => (s, Except.error Exn.generic)

/-- C7 (witness): a concrete scope whose body raises: the driver handle is
released anyway and the exception is passed through. -/
theorem with_scraper_closes_every_path_witness :
    (withScraper stFresh false 5 bodyRaise).1.driver = none ∧
    (({ stFresh with driver := some 5 } : ScraperState).driver.isSome = true ∧
      withScraper stFresh false 5 bodyRaise =
        ((close (bodyRaise { stFresh with driver := some 5 }).1).1,
          (bodyRaise { stFresh with driver := some 5 }).2)) := by
  refine ⟨(with_scraper_closes_every_path Nat stFresh false 5 bodyRaise).1, ?_⟩
  exact (with_scraper_closes_every_path Nat stFresh false 5 bodyRaise).2
    { stFresh with driver := some 5 } ["WebDriver initialized successfully"] rfl

/-- `scrapeGo` never changes the scraper state. -/
theorem scrapeGo_state (st0 : ScraperState) (pre : List String)
    (env : ScrapeEnv) (url : Option String) :
    (scrapeGo st0 pre env url).state = st0 := by
  cases url with
  | none => rfl
  | some u =>
    by_cases hu : u = "" <;> by_cases h : env.navigateFails = true <;>
      simp [scrapeGo, hu, h]

/-- `scrape_page` never changes `session_active`. -/
theorem scrape_page_session (st : ScraperState) (env : ScrapeEnv)
    (url : Option String) (w : ℚ) :
    (scrape_page st env url w).state.session_active = st.session_active := by
  by_cases hd : st.driver = none <;> by_cases hf : env.startFails = true <;>
    simp [scrape_page, hd, hf, scrapeGo_state]

/-- `login` either leaves `session_active` unchanged (when it raises or
returns `false`) or sets it to `true` (when it returns `true`). -/
theorem login_session (st : ScraperState) (env : LoginEnv) (a : LoginArgs) :
    ((login st env a).state.session_active = st.session_active ∧
      (login st env a).outcome ≠ Except.ok true) ∨
    ((login st env a).state.session_active = true ∧
      (login st env a).outcome = Except.ok true) := by
  by_cases hd : st.driver = none
  · by_cases hf : env.startFails = true
    · left
      constructor
      · simp [login, hd, hf]
      · simp [login, hd, hf]
    · simpa [login, hd, hf] using
        loginFinish_session { st with driver := some env.newHandle }
          ["WebDriver initialized successfully"] env a
  · simpa [login, hd] using loginFinish_session st [] env a

/-- C8: the authenticated flag starts out `false` at construction, becomes
`true` only through a `login` call that returns `true` (no other operation
raises it), a login that does not return `true` leaves it unchanged, and
`close` resets it to `false` from either authentication sub-state. -/
theorem session_active_invariant :
    (∀ (hl : Bool) (ws : String), (init hl ws).session_active = false) ∧
    (∀ (st : ScraperState) (op : Op), st.session_active = false →
      (step st op).session_active = true →
      ∃ env a, op = Op.login env a ∧ (login st env a).outcome = Except.ok true) ∧
    (∀ (st : ScraperState) (env : LoginEnv) (a : LoginArgs),
      (login st env a).outcome ≠ Except.ok true →
      (login st env a).state.session_active = st.session_active) ∧
    (∀ st : ScraperState, st.driver.isSome = true →
      (close st).1.session_active = false) := by
  refine ⟨fun hl ws => rfl, ?_, ?_, ?_⟩
  · intro st op h0 h1
    cases op with
    | start f hdl =>
      exfalso
      rcases hs : start st f hdl with u | ⟨st1, ms⟩ <;> simp only [step, hs] at h1
      · rw [h0] at h1; cases h1
      · rw [(start_result st f hdl st1 ms hs).2, h0] at h1; cases h1
    | close =>
      exfalso
      rcases st with ⟨d, hl, ws, sa⟩
      cases d <;> simp_all [step, close]
    | scrape env url w =>
      exfalso
      simp only [step] at h1
      rw [scrape_page_session st env url w, h0] at h1; cases h1
    | login env a =>
      rcases login_session st env a with ⟨hp, _⟩ | ⟨_, ht⟩
      · exfalso
        simp only [step] at h1
        rw [hp, h0] at h1; cases h1
      · exact ⟨env, a, rfl, ht⟩
  · intro st env a hne
    rcases login_session st env a with ⟨hp, _⟩ | ⟨_, ht⟩
    · exact hp
    · exact absurd ht hne
  · intro st h
    rcases st with ⟨d, hl, ws, sa⟩
    cases d <;> simp_all [close]

/-- A started, authenticated session. -/
def stStarted : ScraperState := ⟨some 7, true, "1920,1080", true⟩

/-- C8 (witness): at construction the flag is `false`; a successful
no-indicator login raises it; a failed login (indicator never appears) leaves
it unchanged; `close` on an authenticated session resets it. -/
theorem session_active_invariant_witness :
    (init true "1920,1080").session_active = false ∧
    (stFresh.session_active = false ∧
      (step stFresh (Op.login envAllOk argsNoInd)).session_active = true ∧
      ∃ env a, Op.login envAllOk argsNoInd = Op.login env a ∧
        (login stFresh env a).outcome = Except.ok true) ∧
    ((login stFresh envNoIndicator argsInd).outcome ≠ Except.ok true ∧
      (login stFresh envNoIndicator argsInd).state.session_active =
        stFresh.session_active) ∧
    (stStarted.driver.isSome = true ∧ (close stStarted).1.session_active = false) := by
  have hne : (login stFresh envNoIndicator argsInd).outcome ≠ Except.ok true := by
    intro h
    rw [show (login stFresh envNoIndicator argsInd).outcome = Except.ok false
      from rfl] at h
    simp at h
  refine ⟨session_active_invariant.1 true "1920,1080",
          ⟨rfl, rfl, session_active_invariant.2.1 stFresh
            (Op.login envAllOk argsNoInd) rfl rfl⟩,
          ⟨hne, session_active_invariant.2.2.1 stFresh envNoIndicator argsInd hne⟩,
          ⟨rfl, session_active_invariant.2.2.2 stStarted rfl⟩⟩

/-- C9: for bounds `min ≤ max` and a unit draw `u ∈ [0, 1)`, the drawn
duration lies in the closed interval `[min, max]`, and the call sleeps for
exactly the drawn duration. -/
theorem wait_random_in_bounds (min_seconds max_seconds u : ℚ)
    (hb : min_seconds ≤ max_seconds) (h0 : 0 ≤ u) (h1 : u < 1) :
    min_seconds ≤ (wait_random min_seconds max_seconds u).1 ∧
    (wait_random min_seconds max_seconds u).1 ≤ max_seconds ∧
    (wait_random min_seconds max_seconds u).2 =
      (wait_random min_seconds max_seconds u).1 := by
  refine ⟨?_, ?_, rfl⟩
  · show min_seconds ≤ min_seconds + (max_seconds - min_seconds) * u
    nlinarith
  · show min_seconds + (max_seconds - min_seconds) * u ≤ max_seconds
    nlinarith

/-- C9 (witness): with bounds 1 and 3 and unit draw 1/2 the drawn duration, 2,
lies in `[1, 3]` and is exactly the slept duration. -/
theorem wait_random_in_bounds_witness :
    ((1 : ℚ) ≤ 3 ∧ (0 : ℚ) ≤ 1 / 2 ∧ (1 / 2 : ℚ) < 1) ∧
    (1 : ℚ) ≤ (wait_random 1 3 (1 / 2)).1 ∧
    (wait_random 1 3 (1 / 2)).1 ≤ 3 ∧
    (wait_random 1 3 (1 / 2)).2 = (wait_random 1 3 (1 / 2)).1 := by
  exact ⟨⟨by norm_num, by norm_num, by norm_num⟩,
    wait_random_in_bounds 1 3 (1 / 2) (by norm_num) (by norm_num) (by norm_num)⟩

/-- `loginFinish` never changes the driver handle. -/
theorem loginFinish_driver (st0 : ScraperState) (pre : List String)
    (env : LoginEnv) (a : LoginArgs) :
    (loginFinish st0 pre env a).state.driver = st0.driver := by
  obtain ⟨sf, nh, nf, ua, pff, sbf, cf, sia⟩ := env
  obtain ⟨u, un, pw, uf, pf2, sb2, si⟩ := a
  cases nf <;> cases ua <;> cases pff <;> cases sbf <;> cases cf <;> cases sia <;>
    cases hsi : pyTruthy si <;> simp [loginFinish, loginTry, hsi]

/-- C10: calling `login` or `scrape_page` on a never-started session does not
fail on a missing precondition: each auto-starts the driver first (so the
"Session must be started" invariant is not required by the code); and because
that auto-start runs before `login`'s `try` block, a driver-startup failure
propagates to the caller even from `login`. -/
theorem auto_start_before_use :
    (∀ (st : ScraperState) (env : LoginEnv) (a : LoginArgs), st.driver = none →
      env.startFails = false →
      (login st env a).state.driver = some env.newHandle ∧
      ∃ b, (login st env a).outcome = Except.ok b) ∧
    (∀ (st : ScraperState) (env : ScrapeEnv) (url : Option String) (w : ℚ),
      st.driver = none → env.startFails = false →
      (scrape_page st env url w).state.driver = some env.newHandle) ∧
    (∀ (st : ScraperState) (env : LoginEnv) (a : LoginArgs), st.driver = none →
      env.startFails = true →
      (login st env a).outcome = Except.error Exn.webDriver) ∧
    (∀ (st : ScraperState) (env : ScrapeEnv) (url : Option String) (w : ℚ),
      st.driver = none → env.startFails = true →
      (scrape_page st env url w).outcome = Except.error Exn.webDriver) := by
  refine ⟨?_, ?_, ?_, ?_⟩
  · intro st env a hd hf
    constructor
    · rw [show login st env a = loginFinish { st with driver := some env.newHandle }
        ["WebDriver initialized successfully"] env a from by simp [login, hd, hf]]
      rw [loginFinish_driver]
    · rcases login_eq_loginFinish st env a (Or.inr hf) with ⟨_, he⟩ | ⟨_, _, he⟩ <;>
        rw [he] <;> exact loginFinish_ok _ _ _ _
  · intro st env url w hd hf
    simp [scrape_page, hd, hf, scrapeGo_state]
  · intro st env a hd hf
    simp [login, hd, hf]
  · intro st env url w hd hf
    simp [scrape_page, hd, hf]

/-- A scrape environment where every call succeeds. -/
def scrapeEnvOk : ScrapeEnv := ⟨false, 9, false, exampleDoc⟩

/-- A scrape environment where driver startup raises. -/
def scrapeEnvFail : ScrapeEnv := ⟨true, 9, false, exampleDoc⟩

/-- C10 (witness): concrete never-started sessions: both operations install
the new handle when startup succeeds, and both propagate the startup
failure. -/
theorem auto_start_before_use_witness :
    (stFresh.driver = none ∧ envAllOk.startFails = false ∧
      (login stFresh envAllOk argsNoInd).state.driver = some envAllOk.newHandle) ∧
    (scrape_page stFresh scrapeEnvOk (some "https://example.com") 2).state.driver =
      some scrapeEnvOk.newHandle ∧
    (login stFresh envStartFail argsInd).outcome = Except.error Exn.webDriver ∧
    (scrape_page stFresh scrapeEnvFail none 2).outcome =
      Except.error Exn.webDriver := by
  refine ⟨⟨rfl, rfl, (auto_start_before_use.1 stFresh envAllOk argsNoInd rfl rfl).1⟩,
          auto_start_before_use.2.1 stFresh scrapeEnvOk
            (some "https://example.com") 2 rfl rfl,
          auto_start_before_use.2.2.1 stFresh envStartFail argsInd rfl rfl,
          auto_start_before_use.2.2.2 stFresh scrapeEnvFail none 2 rfl rfl⟩
